import Mathlib

/-!
Verification of the credential pool / rotation / resilience engine of the
`2apifare` gateway against its natural-language specification.

The Python sources are shallowly embedded as executable Lean definitions:
* `src/src/antigravity_credential_manager.py` — model-family identification,
  429 ban handling, credential acquisition, error/success bookkeeping;
* `src/src/antigravity_usage_stats.py` — daily quota tracking and reset;
* `src/src/storage/file_storage_manager.py` — account-document loading;
* `src/src/openai_router.py` — the streaming retry orchestrator.

Conventions: wall-clock instants are integer epoch seconds (`Nat` for the
quota tracker, `Int` where differences may be negative); token timestamps are
epoch milliseconds as in the source; Python dict fields that may be absent are
`Option`s; values read from TOML that may be ill-typed are an explicit sum;
code that raises is embedded as `Except`, with the enclosing `try/except`
embedded as the surrounding `match`.
-/

namespace Gateway

/-! ### Model families (`_identify_model_series`) -/

/-- The model families known to `_identify_model_series`:
`claude_series`, `gemini_3_series`, `gemini_2_5_series`, `gemini_2_series`,
`gemini_series`. -/
inductive Series where
  | claude
  | gemini3
  | gemini25
  | gemini2
  | gemini
deriving DecidableEq, Repr

/-- Python `needle in haystack` on strings (as char lists): `needle` occurs
as a contiguous substring of `haystack`. -/
def containsSub (needle : List Char) : List Char → Bool
  | [] => needle.isEmpty
  | c :: rest => needle.isPrefixOf (c :: rest) || containsSub needle rest

/-- Lower-cased character list of a string, Python `model_name.lower()`. -/
def lowerChars (s : String) : List Char := s.data.map Char.toLower

/-- `_identify_model_series` (antigravity_credential_manager.py:122):
classify a model name by substring matching, in source order; unknown names
yield `none`. The Python empty-string guard `if not model_name` is the first
branch. -/
def identifyModelSeries (modelName : String) : Option Series :=
  if modelName = "" then none
  else
    let ml := lowerChars modelName
    if containsSub "claude".data ml then some .claude
    else if containsSub "gemini-3".data ml || containsSub "gemini3".data ml then some .gemini3
    else if containsSub "gemini-2.5".data ml || containsSub "gemini2.5".data ml then some .gemini25
    else if containsSub "gemini-2".data ml || containsSub "gemini2".data ml then some .gemini2
    else if containsSub "gemini".data ml then some .gemini
    else none

/-- The list `all_series` used by the conservative fallback in
`_handle_429_series_ban` (antigravity_credential_manager.py:721), in source
order. -/
def allSeries : List Series := [.gemini, .gemini2, .gemini25, .gemini3, .claude]

/-! ### Ban records

An account stores one `f"{series}_banned_until"` ISO-8601 string per family.
The embedding records the parse outcome of that field: absent (missing key or
empty string), malformed (`datetime.fromisoformat` raises), or the parsed
instant in epoch seconds. -/

inductive StoredTime where
  | absent
  | malformed
  | until_ (t : Int)
deriving DecidableEq, Repr

/-- Per-account ban map: one stored expiry per family. -/
def BanMap := Series → StoredTime

/-- `_check_series_ban` body (antigravity_credential_manager.py:780), before
the enclosing `try/except`: unknown family or no record is not banned; a
malformed stored expiry raises (`.error`); otherwise banned iff `now <
ban_until`. The lazy write-back clearing an elapsed ban only mutates storage
and is not part of the returned value. -/
def checkSeriesBanBody (bans : BanMap) (modelName : String) (now : Int) :
    Except String Bool :=
  match identifyModelSeries modelName with
  | none => .ok false
  | some s =>
    match bans s with
    | .absent => .ok false
    | .malformed => .error "ValueError: Invalid isoformat string"
    | .until_ banUntil => .ok (decide (now < banUntil))

/-- `_check_series_ban` with its `except` clause: any internal exception is
caught and the account is treated as not banned. -/
def checkSeriesBan (bans : BanMap) (modelName : String) (now : Int) : Bool :=
  match checkSeriesBanBody bans modelName now with
  | .ok b => b
  | .error _ => false

/-! ### Duration parsing (`_parse_duration_to_seconds`) -/

/-- Numeric value of a digit run, most significant first. -/
def digitsToNat (ds : List Char) : Nat :=
  ds.foldl (fun acc c => acc * 10 + (c.toNat - '0'.toNat)) 0

/-- `re.search(r'(\d+)X', s)` for a non-digit marker `X`: the leftmost digit
run immediately followed by the marker (backtracking inside a run cannot
succeed because the character after a shorter prefix is again a digit). -/
def searchNumBefore (marker : Char) : List Char → Option Nat
  | [] => none
  | c :: cs =>
    let run := (c :: cs).takeWhile Char.isDigit
    if !run.isEmpty && ((c :: cs).dropWhile Char.isDigit).head? = some marker then
      some (digitsToNat run)
    else
      searchNumBefore marker cs

/-- `re.search(r'([\d.]+)s', s)` followed by `int(float(...))`: leftmost run
of digits and dots followed by `'s'`; the value truncates at the first dot. -/
def searchSecondsBefore : List Char → Option Nat
  | [] => none
  | c :: cs =>
    let inClass := fun ch : Char => ch.isDigit || ch = '.'
    let run := (c :: cs).takeWhile inClass
    if !run.isEmpty && ((c :: cs).dropWhile inClass).head? = some 's' then
      some (digitsToNat (run.takeWhile Char.isDigit))
    else
      searchSecondsBefore cs

/-- `_parse_duration_to_seconds` (antigravity_credential_manager.py:26):
sum of hours, minutes and (truncated) seconds components found anywhere in the
string; empty input and no matches give 0. -/
def parseDurationToSeconds (s : String) : Nat :=
  if s = "" then 0
  else
    (searchNumBefore 'h' s.data).getD 0 * 3600 +
    (searchNumBefore 'm' s.data).getD 0 * 60 +
    (searchSecondsBefore s.data).getD 0

/-! ### 429 error details and ban duration (`_handle_429_series_ban`) -/

/-- Result of `_parse_429_error_details`: the extracted metadata fields.
`quotaResetTimestamp` records the parse outcome of the `quotaResetTimeStamp`
string: `none` = field absent, `some none` = present but
`datetime.fromisoformat` raises, `some (some t)` = parsed instant (epoch
seconds). `quotaResetDelaySeconds` is `_parse_duration_to_seconds` of the
`quotaResetDelay` field when present. -/
structure ParsedDetails where
  model : String
  quotaResetTimestamp : Option (Option Int)
  quotaResetDelaySeconds : Option Nat
deriving DecidableEq, Repr

/-- The result-building step of `_parse_429_error_details`
(antigravity_credential_manager.py:92-115): the dict is returned only when it
holds a (truthy, i.e. nonempty) model or a (truthy, i.e. nonzero) parsed
delay. -/
def mkParsedDetails (modelField : Option String) (tsField : Option (Option Int))
    (delayField : Option String) : Option ParsedDetails :=
  let model := modelField.getD ""
  let delaySecs := delayField.map parseDurationToSeconds
  if model ≠ "" ∨ delaySecs.getD 0 ≠ 0 then
    some ⟨model, tsField, delaySecs⟩
  else
    none

/-- Ban-duration computation of `_handle_429_series_ban`
(antigravity_credential_manager.py:683-701): default 6 hours; a carried,
parseable reset timestamp gives `max ((reset − now) * 2) 3600`; a carried but
unparseable one keeps the default (`except: pass`); otherwise a positive
carried delay gives `delay * 2`. -/
def banDurationSeconds (details : Option ParsedDetails) (now : Int) : Int :=
  match details with
  | none => 21600
  | some d =>
    match d.quotaResetTimestamp with
    | some (some resetTime) => max ((resetTime - now) * 2) 3600
    | some none => 21600
    | none =>
      let delaySeconds := d.quotaResetDelaySeconds.getD 0
      if delaySeconds > 0 then (delaySeconds : Int) * 2 else 21600

/-- `_set_series_ban` effect on the in-memory ban map
(antigravity_credential_manager.py:732): set the one `*_banned_until` field of
the given family. -/
def setSeriesBan (bans : BanMap) (s : Series) (banUntil : Int) : BanMap :=
  fun t => if t = s then .until_ banUntil else bans t

/-- `_handle_429_series_ban` effect on an account's ban map
(antigravity_credential_manager.py:670): compute `ban_until = now + duration`;
if the model from the details has an identifiable family ban that family only,
otherwise ban every family in `all_series`. -/
def handle429SeriesBan (bans : BanMap) (details : Option ParsedDetails)
    (now : Int) : BanMap :=
  let banUntil := now + banDurationSeconds details now
  let modelName := (details.map ParsedDetails.model).getD ""
  match identifyModelSeries modelName with
  | some s => setSeriesBan bans s banUntil
  | none => allSeries.foldl (fun b s => setSeriesBan b s banUntil) bans

/-! ### Quota tracker (`antigravity_usage_stats.py`)

Statistics fields come from TOML and may be ill-typed; an integer-or-string
sum models the scalar values the comparisons see. -/

/-- A TOML scalar as seen by the stats comparisons: an integer or a string.
The code only ever writes non-negative integers. -/
inductive Val where
  | nat (n : Nat)
  | str (s : String)
deriving DecidableEq, Repr

/-- Python `a >= b` on stats values: defined for int/int and str/str
(code-point lexicographic), a mixed comparison raises `TypeError`. -/
def valGe : Val → Val → Except String Bool
  | .nat a, .nat b => .ok (decide (a ≥ b))
  | .str a, .str b => .ok (decide (b ≤ a))
  | _, _ => .error "TypeError: unorderable types"

/-- One account's quota record as cached by `AntigravityUsageStats`
(`_load_stats` / `_get_or_create_stats` always populate all seven keys). -/
structure RawStats where
  claudeCalls : Val
  geminiCalls : Val
  totalCalls : Val
  nextResetTime : StoredTime
  limitClaude : Val
  limitGemini : Val
  limitTotal : Val
deriving DecidableEq, Repr

/-- `_get_next_utc_7am` (antigravity_usage_stats.py:15) on epoch seconds:
today's 07:00 UTC if now is before it, else tomorrow's. -/
def nextUtc7am (now : Nat) : Nat :=
  let today7am := now / 86400 * 86400 + 7 * 3600
  if now < today7am then today7am else today7am + 86400

/-- `_is_claude_sonnet_4_5` (antigravity_usage_stats.py:62): strip the
`ANT/` prefix, lower-case, and test the `claude-sonnet-4-5` prefix. -/
def isClaudeSonnet45 (modelName : String) : Bool :=
  if modelName = "" then false
  else "claude-sonnet-4-5".data.isPrefixOf
    (lowerChars (modelName.replace "ANT/" ""))

/-- `_is_gemini_3_pro` (antigravity_usage_stats.py:79): strip the `ANT/`
prefix, lower-case, and test the `gemini-3` prefix. -/
def isGemini3Pro (modelName : String) : Bool :=
  if modelName = "" then false
  else "gemini-3".data.isPrefixOf (lowerChars (modelName.replace "ANT/" ""))

/-- `_check_and_reset_daily_quota` (antigravity_usage_stats.py:199): a missing
reset instant is initialised to the next UTC 07:00 (no reset); a malformed one
raises inside the function's own `try` and is caught (no reset); once `now`
reaches the stored instant all three counters are zeroed and the instant
advances to the next UTC 07:00 after `now`. Returns the updated record and
whether a reset happened. -/
def checkAndResetDailyQuota (stats : RawStats) (now : Nat) : RawStats × Bool :=
  match stats.nextResetTime with
  | .absent => ({ stats with nextResetTime := .until_ (nextUtc7am now) }, false)
  | .malformed => (stats, false)
  | .until_ nextReset =>
    if (now : Int) ≥ nextReset then
      ({ stats with
          claudeCalls := .nat 0
          geminiCalls := .nat 0
          totalCalls := .nat 0
          nextResetTime := .until_ (nextUtc7am now) }, true)
    else
      (stats, false)

/-- The limit comparisons of `check_quota_available`
(antigravity_usage_stats.py:297-313), run on the lazily reset record: total
limit first, then the matching family limit; an ill-typed comparison raises. -/
def quotaLimitCheck (stats : RawStats) (modelName : String) :
    Except String Bool := do
  let isClaude := isClaudeSonnet45 modelName
  let isGemini := isGemini3Pro modelName
  if ← valGe stats.totalCalls stats.limitTotal then
    return false
  if isClaude then
    if ← valGe stats.claudeCalls stats.limitClaude then return false
    else return true
  else if isGemini then
    if ← valGe stats.geminiCalls stats.limitGemini then return false
    else return true
  else
    return true

/-- `check_quota_available` (antigravity_usage_stats.py:279): lazy daily
reset, then the limit checks; the enclosing `except` turns any internal
exception into "available". Returns the verdict and the (possibly reset)
record the in-memory cache keeps. -/
def checkQuotaAvailable (stats : RawStats) (modelName : String) (now : Nat) :
    Bool × RawStats :=
  let stats' := (checkAndResetDailyQuota stats now).1
  match quotaLimitCheck stats' modelName with
  | .ok b => (b, stats')
  | .error _ => (true, stats')

/-! ### Credential state bookkeeping (`mark_credential_error`,
`mark_credential_success`) -/

/-- A per-credential state document (`get_credential_state` /
`update_credential_state`): error history, disabled flag, last success
instant. -/
structure CredState where
  errorCodes : List Nat
  disabled : Bool
  lastSuccess : Option Nat
deriving DecidableEq, Repr

/-- The empty dict `mark_credential_*` substitute for a missing state. -/
def emptyCredState : CredState := ⟨[], false, none⟩

/-- `mark_credential_error` (antigravity_credential_manager.py:608) as a
state transition. The error code is appended to the history when new; then:
429 updates the ban ledger via `_handle_429_series_ban` (second component
`true`) and never disables; 401 is logged only; 403/404 disable immediately;
any other code disables iff auto-ban is enabled and the code is configured. -/
def markCredentialError (state : Option CredState) (errorCode : Nat)
    (autoBanEnabled : Bool) (autoBanErrorCodes : List Nat) :
    CredState × Bool :=
  let st := state.getD emptyCredState
  let st := { st with
    errorCodes :=
      if errorCode ∈ st.errorCodes then st.errorCodes
      else st.errorCodes ++ [errorCode] }
  if errorCode = 429 then (st, true)
  else if errorCode = 401 then (st, false)
  else if errorCode ∈ [403, 404] then ({ st with disabled := true }, false)
  else if autoBanEnabled && errorCode ∈ autoBanErrorCodes then
    ({ st with disabled := true }, false)
  else (st, false)

/-- `mark_credential_success` (antigravity_credential_manager.py:1001): clear
the error history and stamp the current time as last success. -/
def markCredentialSuccess (state : Option CredState) (now : Nat) : CredState :=
  let st := state.getD emptyCredState
  { st with errorCodes := [], lastSuccess := some now }

/-! ### Account document loading (`load_antigravity_accounts`,
`_discover_credentials`) -/

/-- What the filesystem presents when `accounts.toml` is read: file missing,
file empty, readable content with an account list, or a read/parse failure
(`aiofiles` or `toml.loads` raises). -/
inductive ReadOutcome (α : Type) where
  | missing
  | empty
  | content (accounts : List α)
  | failure
deriving DecidableEq, Repr

/-- The account-list document `{"accounts": [...]}`. -/
structure AccountsDoc (α : Type) where
  accounts : List α
deriving DecidableEq, Repr

/-- `FileStorageManager.load_antigravity_accounts`
(storage/file_storage_manager.py:945). Missing file and empty file both give
`{"accounts": []}`; so does the `except` clause on a read/parse failure. The
return type is `Option` because the callers in
`antigravity_credential_manager.py` guard against a `None` result. -/
def loadAntigravityAccounts {α : Type} (read : ReadOutcome α) :
    Option (AccountsDoc α) :=
  match read with
  | .missing => some ⟨[]⟩
  | .empty => some ⟨[]⟩
  | .content accounts => some ⟨accounts⟩
  | .failure => some ⟨[]⟩

/-- `_discover_credentials` (antigravity_credential_manager.py:215) effect on
the in-memory enabled list: a `None` load keeps the current queue (the
`[CRITICAL FIX]` branch); a document with no accounts clears it; otherwise the
enabled (not disabled) accounts replace it. -/
def discoverCredentials {α : Type} (current : List α) (read : ReadOutcome α)
    (disabled : α → Bool) : List α :=
  match loadAntigravityAccounts read with
  | none => current
  | some doc =>
    if doc.accounts.isEmpty then []
    else doc.accounts.filter (fun a => !disabled a)

/-! ### Token expiry and credential acquisition (`get_valid_credential`) -/

/-- The account fields `get_valid_credential` consults. `timestampMs` and
`expiresInSec` mirror the optional `timestamp` (epoch ms) and `expires_in`
(seconds) dict keys; `hasProjectId` whether `project_id` is present and
nonempty; `bans` the per-family `*_banned_until` fields. -/
structure Account where
  hasProjectId : Bool
  bans : BanMap
  timestampMs : Option Int
  expiresInSec : Option Int

/-- `_is_token_expired` (antigravity_credential_manager.py:338): missing
`timestamp` or `expires_in` is treated as expired; otherwise expired iff
`now_ms ≥ timestamp + expires_in * 1000 − 5 * 60 * 1000`. -/
def isTokenExpired (account : Account) (nowMs : Int) : Bool :=
  match account.timestampMs, account.expiresInSec with
  | some timestamp, some expiresIn =>
    decide (nowMs ≥ timestamp + expiresIn * 1000 - 5 * 60 * 1000)
  | _, _ => true

/-- Manager state: the enabled account list, the rotation cursor and the
rotation call counter (`_credential_accounts`, `_current_credential_index`,
`_call_count`). The invariant maintained by `_load_current_credential` —
the current-account snapshot equals `accounts[idx]` — is built in. -/
structure MgrState where
  accounts : List Account
  idx : Nat
  callCount : Nat

/-- Result of a `get_valid_credential` call that returns: the handed-out
cursor position (`none` = no valid credential), how many series-ban checks
ran, and which cursor positions had a token refresh attempted. -/
structure AcquireResult where
  res : Option Nat
  banChecks : Nat
  refreshes : List Nat
deriving DecidableEq, Repr

/-- Outcome of one `get_valid_credential` call. The whole body runs inside
`async with self._operation_lock:` (antigravity_credential_manager.py:523);
`asyncio.Lock` is not reentrant and the recursive calls at lines 558 and 589
happen while the block is still active, so the recursion blocks forever
re-acquiring the lock the same task already holds: `deadlock`. -/
inductive AcquireOutcome where
  | returns (r : AcquireResult)
  | deadlock
deriving DecidableEq, Repr

/-- `get_valid_credential` (antigravity_credential_manager.py:512), recursion
made structural on a fuel argument; `getValidCredential` supplies fuel
`|accounts| + 1`, which suffices because with the lock modelled every
recursion resolves at its lock acquisition.

Each call first executes `async with self._operation_lock:` (line 523):
`lockHeld` says whether the calling task already holds that lock; since
`asyncio.Lock` is not reentrant, acquiring it again never completes
(`deadlock`). The recursive calls at lines 558 and 589 run inside the still
active `async with` block, so they are passed `lockHeld := true`, and a
`deadlock` of the awaited recursive call is the caller's outcome. None of
the helpers invoked inside the body (`_rotate_credential`,
`_load_current_credential`, `_check_series_ban`, `disable_credential`,
`_discover_credentials`) acquires the operation lock.

Inside the lock, in source order: empty list fails (the reload inside
`_discover_credentials` is outside this model; theorems assume a non-empty
list); the `_checked_count ≥ |accounts|` guard; count-triggered rotation
(`_should_rotate` / `_rotate_credential`); loading `accounts[idx]`;
`_ensure_project_id`, which returns at once when a project id is present (its
network fetch is outside the model; theorems assume `hasProjectId`); the
series-ban check, rotating and recursing while other accounts remain; the
token-expiry check with refresh — `refreshEi account = some e` models a
successful provider exchange returning `expires_in = e`, stamping the token
at `now`, `none` a failed one, which disables the account (dropping it from
the enabled list) and recurses. -/
def getValidCredentialAux (callsPerRotation : Nat) (refreshEi : Account → Option Int)
    (modelName : String) (now : Int) :
    Nat → Bool → MgrState → Nat → AcquireOutcome
  | 0, _, _, _ => .returns ⟨none, 0, []⟩
  | fuel + 1, lockHeld, st, checkedCount =>
    if lockHeld then .deadlock
    else
      if st.accounts.isEmpty then .returns ⟨none, 0, []⟩
      else if checkedCount ≥ st.accounts.length then .returns ⟨none, 0, []⟩
      else
        let st :=
          if st.accounts.length > 1 && st.callCount ≥ callsPerRotation then
            { st with idx := (st.idx + 1) % st.accounts.length, callCount := 0 }
          else st
        match st.accounts[st.idx]? with
        | none => .returns ⟨none, 0, []⟩
        | some account =>
          if checkSeriesBan account.bans modelName now then
            if st.accounts.length > 1 then
              let st' := { st with idx := (st.idx + 1) % st.accounts.length,
                                   callCount := 0 }
              match getValidCredentialAux callsPerRotation refreshEi modelName now
                  fuel true st' (checkedCount + 1) with
              | .deadlock => .deadlock
              | .returns r => .returns { r with banChecks := r.banChecks + 1 }
            else .returns ⟨none, 1, []⟩
          else if isTokenExpired account (now * 1000) then
            match refreshEi account with
            | some newExpiresIn =>
              let account' := { account with
                timestampMs := some (now * 1000)
                expiresInSec := some newExpiresIn }
              let st' := { st with accounts := st.accounts.set st.idx account' }
              .returns ⟨some st'.idx, 1, [st.idx]⟩
            | none =>
              let accounts' := st.accounts.eraseIdx st.idx
              if accounts'.isEmpty then .returns ⟨none, 1, [st.idx]⟩
              else
                let st' := { st with accounts := accounts' }
                match getValidCredentialAux callsPerRotation refreshEi modelName now
                    fuel true st' (checkedCount + 1) with
                | .deadlock => .deadlock
                | .returns r => .returns { r with
                    banChecks := r.banChecks + 1
                    refreshes := st.idx :: r.refreshes }
          else .returns ⟨some st.idx, 1, []⟩

/-- `get_valid_credential(model_name, 0)` from a caller's point of view: the
router calls it without holding the operation lock. -/
def getValidCredential (callsPerRotation : Nat) (refreshEi : Account → Option Int)
    (modelName : String) (now : Int) (st : MgrState) : AcquireOutcome :=
  getValidCredentialAux callsPerRotation refreshEi modelName now
    (st.accounts.length + 1) false st 0

/-! ### Streaming retry orchestrator (`antigravity_stream_generator`,
openai_router.py:682) -/

/-- What one attempt's environment does: `get_valid_credential` returns
nothing; the credential lacks an `access_token`; or the backend call runs,
yielding some chunks (identified by opaque numbers) and then either finishing
cleanly or raising with an extracted error code
(`_extract_error_code_from_exception`; `none` when no code is recognised).
Chunks listed in a failing attempt were already yielded downstream before the
exception surfaced. -/
inductive AttemptPlan where
  | noCredential
  | noAccessToken
  | run (chunks : List Nat) (error : Option (Option Nat))
deriving DecidableEq, Repr

/-- Client-visible and bookkeeping events the generator produces, in order. -/
inductive Ev where
  | chunk (id : Nat)
  | finishChunk
  | errorChunk
  | doneMarker
  | rotate
  | markError (code : Nat)
  | markSuccess
  | recordUsage
deriving DecidableEq, Repr

/-- `_check_should_retry_antigravity` (openai_router.py:86): retry iff an
error code was extracted and it is in the configured auto-ban code list. -/
def checkShouldRetryAntigravity (errorCode : Option Nat)
    (autoBanErrorCodes : List Nat) : Bool :=
  match errorCode with
  | none => false
  | some code => code ∈ autoBanErrorCodes

/-- The `for attempt in range(max_retries)` body of
`antigravity_stream_generator` (openai_router.py:686-799), one plan per loop
iteration. No credential: emit a final error chunk plus `[DONE]` and stop.
Missing access token: force-rotate and continue. A run: forward each chunk as
produced; on clean completion emit the finish chunk, mark success, record
usage and stop; on an exception mark the credential error (when a code was
extracted), then — retryable code with attempts remaining — force-rotate and
continue, else emit a final error chunk plus `[DONE]` and stop. Falling off
the loop end (only reachable via `continue` on the last attempt) ends the
stream with no final chunk. -/
def streamGenAux (maxRetries : Nat) (autoBanErrorCodes : List Nat) :
    List AttemptPlan → Nat → List Ev
  | [], _ => []
  | plan :: rest, attempt =>
    if attempt ≥ maxRetries then []
    else
      match plan with
      | .noCredential => [.errorChunk, .doneMarker]
      | .noAccessToken =>
        .rotate :: streamGenAux maxRetries autoBanErrorCodes rest (attempt + 1)
      | .run chunks error =>
        let chunkEvs := chunks.map Ev.chunk
        match error with
        | none => chunkEvs ++ [.finishChunk, .markSuccess, .recordUsage]
        | some errorCode =>
          let markEvs := match errorCode with
            | some code => [Ev.markError code]
            | none => []
          if checkShouldRetryAntigravity errorCode autoBanErrorCodes
              && attempt < maxRetries - 1 then
            chunkEvs ++ markEvs ++ [.rotate] ++
              streamGenAux maxRetries autoBanErrorCodes rest (attempt + 1)
          else
            chunkEvs ++ markEvs ++ [.errorChunk, .doneMarker]

/-- `antigravity_stream_generator` with the source's `max_retries = 5`. -/
def streamGen (autoBanErrorCodes : List Nat) (plans : List AttemptPlan) :
    List Ev :=
  streamGenAux 5 autoBanErrorCodes plans 0

/-- Whether a trace forwards an output chunk and later starts a new attempt
(a `rotate` event after a `chunk` event) — the behaviour §7 of the spec rules
out for mid-stream failures. -/
def chunkThenRotate : List Ev → Bool
  | [] => false
  | Ev.chunk _ :: rest => rest.contains Ev.rotate || chunkThenRotate rest
  | _ :: rest => chunkThenRotate rest

/-! ## Theorems -/

/-- Helper: a left fold of `setSeriesBan` over a list of families sets
exactly the listed families. -/
theorem foldl_setSeriesBan (L : List Series) (bans : BanMap) (u : Int)
    (t : Series) :
    (L.foldl (fun b s => setSeriesBan b s u) bans) t =
      if t ∈ L then .until_ u else bans t := by
  induction L generalizing bans with
  | nil => simp
  | cons s L ih =>
    rw [List.foldl_cons, ih]
    by_cases h1 : t ∈ L <;> by_cases h2 : t = s <;>
      simp [setSeriesBan, h1, h2]

/-- C3: a read failure of `accounts.toml` is returned as `{"accounts": []}`,
byte-identical to an empty document, the `None` result the discovery guard
protects against never occurs, and discovery on a failed read therefore
clears a non-empty in-memory pool instead of keeping it. -/
theorem loadAccounts_readFailure_indistinguishable :
    loadAntigravityAccounts (ReadOutcome.failure : ReadOutcome Nat) =
      loadAntigravityAccounts (ReadOutcome.empty : ReadOutcome Nat) ∧
    (∀ (α : Type) (read : ReadOutcome α),
      (loadAntigravityAccounts read).isSome = true) ∧
    discoverCredentials [7] (ReadOutcome.failure : ReadOutcome Nat)
      (fun _ => false) = [] := by
  refine ⟨rfl, fun α read => ?_, rfl⟩
  cases read <;> rfl

/-- C4: the 429 ban duration is `max (2 × (reset − now)) 3600` seconds when
the parsed details carry a (parseable) reset timestamp; otherwise `2 × delay`
when they carry a positive reset delay — in particular a `"10m"` delay parses
to 600 s and yields a 1200 s (20 minute) ban; otherwise the 6-hour (21600 s)
default. -/
theorem banDurationSeconds_spec :
    (∀ (d : ParsedDetails) (now resetTime : Int),
      d.quotaResetTimestamp = some (some resetTime) →
      banDurationSeconds (some d) now = max ((resetTime - now) * 2) 3600) ∧
    (∀ (d : ParsedDetails) (now : Int) (delay : Nat),
      d.quotaResetTimestamp = none → d.quotaResetDelaySeconds = some delay →
      0 < delay → banDurationSeconds (some d) now = (delay : Int) * 2) ∧
    (∀ (d : ParsedDetails) (now : Int),
      d.quotaResetTimestamp = none →
      d.quotaResetDelaySeconds = none ∨ d.quotaResetDelaySeconds = some 0 →
      banDurationSeconds (some d) now = 21600) ∧
    (∀ now : Int, banDurationSeconds none now = 21600) ∧
    parseDurationToSeconds "10m" = 600 ∧
    (∀ now : Int,
      banDurationSeconds (mkParsedDetails (some "x-pro-high") none (some "10m"))
        now = 1200) := by
  refine ⟨fun d now resetTime hts => ?_, fun d now delay hts hd hpos => ?_,
    fun d now hts hd => ?_, fun now => rfl, by decide, fun now => ?_⟩
  · simp [banDurationSeconds, hts]
  · simp [banDurationSeconds, hts, hd, hpos]
  · rcases hd with hd | hd <;> simp [banDurationSeconds, hts, hd]
  · have h : mkParsedDetails (some "x-pro-high") none (some "10m") =
        some ⟨"x-pro-high", none, some 600⟩ := by decide
    rw [h]
    simp [banDurationSeconds]

/-- C4 witness: at a concrete input carrying only the delay `"10m"`
(600 seconds), the computed ban lasts 1200 seconds. -/
theorem banDurationSeconds_spec_witness :
    banDurationSeconds (some ⟨"x-pro-high", none, some 600⟩) 5000 = 1200 :=
  banDurationSeconds_spec.2.1 ⟨"x-pro-high", none, some 600⟩ 5000 600
    rfl rfl (by decide)

/-- C7: `mark_credential_error` never disables on 429 (it updates the ban
ledger instead) nor on 401; it disables immediately on 403 and 404; and on
any other status it disables exactly when auto-ban is enabled and the status
is configured. -/
theorem markCredentialError_spec (state : Option CredState) (code : Nat)
    (autoBanEnabled : Bool) (autoBanErrorCodes : List Nat) :
    (code = 429 →
      (markCredentialError state code autoBanEnabled autoBanErrorCodes).2 = true ∧
      (markCredentialError state code autoBanEnabled autoBanErrorCodes).1.disabled =
        (state.getD emptyCredState).disabled) ∧
    (code = 401 →
      (markCredentialError state code autoBanEnabled autoBanErrorCodes).2 = false ∧
      (markCredentialError state code autoBanEnabled autoBanErrorCodes).1.disabled =
        (state.getD emptyCredState).disabled) ∧
    (code = 403 ∨ code = 404 →
      (markCredentialError state code autoBanEnabled autoBanErrorCodes).1.disabled =
        true) ∧
    (code ≠ 429 → code ≠ 401 → code ≠ 403 → code ≠ 404 →
      (markCredentialError state code autoBanEnabled autoBanErrorCodes).1.disabled =
        ((state.getD emptyCredState).disabled ||
          (autoBanEnabled && decide (code ∈ autoBanErrorCodes)))) := by
  refine ⟨fun h => ?_, fun h => ?_, fun h => ?_, fun h1 h2 h3 h4 => ?_⟩
  · subst h; simp [markCredentialError]
  · subst h; simp [markCredentialError]
  · rcases h with h | h <;> subst h <;> simp [markCredentialError]
  · by_cases hb1 : autoBanEnabled <;> by_cases hb2 : code ∈ autoBanErrorCodes <;>
      simp [markCredentialError, h1, h2, h3, h4, hb1, hb2]

/-- C7 witness: concrete calls — a 429 keeps the account enabled and feeds
the ban ledger; a 403 disables it. -/
theorem markCredentialError_spec_witness :
    (markCredentialError (some ⟨[], false, none⟩) 429 false []).2 = true ∧
    (markCredentialError (some ⟨[], false, none⟩) 429 false []).1.disabled =
      false ∧
    (markCredentialError (some ⟨[], false, none⟩) 403 false []).1.disabled =
      true :=
  ⟨(markCredentialError_spec (some ⟨[], false, none⟩) 429 false []).1 rfl |>.1,
   (markCredentialError_spec (some ⟨[], false, none⟩) 429 false []).1 rfl |>.2,
   (markCredentialError_spec (some ⟨[], false, none⟩) 403 false
      []).2.2.1 (Or.inl rfl)⟩

/-- C8: `mark_credential_success` leaves the error history empty, a second
call leaves it empty again, and the stamped last-success instants are
non-decreasing when the clock is. -/
theorem markCredentialSuccess_spec (state : Option CredState) (t1 t2 : Nat)
    (h : t1 ≤ t2) :
    (markCredentialSuccess state t1).errorCodes = [] ∧
    (markCredentialSuccess (some (markCredentialSuccess state t1)) t2).errorCodes
      = [] ∧
    (markCredentialSuccess state t1).lastSuccess = some t1 ∧
    (markCredentialSuccess (some (markCredentialSuccess state t1)) t2).lastSuccess
      = some t2 ∧
    (∀ a b : Nat,
      (markCredentialSuccess state t1).lastSuccess = some a →
      (markCredentialSuccess (some (markCredentialSuccess state t1))
        t2).lastSuccess = some b → a ≤ b) := by
  refine ⟨rfl, rfl, rfl, rfl, fun a b ha hb => ?_⟩
  simp only [markCredentialSuccess, Option.some.injEq] at ha hb
  omega

/-- C8 witness: two successive success marks at times 3 and 5. -/
theorem markCredentialSuccess_spec_witness :
    (markCredentialSuccess (some ⟨[429, 500], false, some 1⟩) 3).errorCodes
      = [] ∧
    (markCredentialSuccess
      (some (markCredentialSuccess (some ⟨[429, 500], false, some 1⟩) 3))
      5).errorCodes = [] ∧
    (markCredentialSuccess (some ⟨[429, 500], false, some 1⟩) 3).lastSuccess
      = some 3 ∧
    (markCredentialSuccess
      (some (markCredentialSuccess (some ⟨[429, 500], false, some 1⟩) 3))
      5).lastSuccess = some 5 :=
  have h := markCredentialSuccess_spec (some ⟨[429, 500], false, some 1⟩) 3 5
    (by decide)
  ⟨h.1, h.2.1, h.2.2.1, h.2.2.2.1⟩

/-- C10: when the limit comparison inside the quota check raises, the quota
check reports "available"; when the ban-record parse inside the series-ban
check raises, the ban check reports "not banned" — internal checking errors
never block a request. -/
theorem failOpen_spec :
    (∀ (stats : RawStats) (modelName : String) (now : Nat) (e : String),
      quotaLimitCheck (checkAndResetDailyQuota stats now).1 modelName =
        .error e →
      (checkQuotaAvailable stats modelName now).1 = true) ∧
    (∀ (bans : BanMap) (modelName : String) (now : Int) (e : String),
      checkSeriesBanBody bans modelName now = .error e →
      checkSeriesBan bans modelName now = false) := by
  constructor
  · intro stats modelName now e h
    simp [checkQuotaAvailable, h]
  · intro bans modelName now e h
    simp [checkSeriesBan, h]

/-- C10 witness: an ill-typed total-call counter makes the quota comparison
raise yet the check returns available; a malformed stored ban expiry makes
the ban parse raise yet the check returns not banned. -/
theorem failOpen_spec_witness :
    quotaLimitCheck
      (checkAndResetDailyQuota
        ⟨.nat 0, .nat 0, .str "oops", .until_ 999999999, .nat 100, .nat 100,
          .nat 500⟩ 0).1 "ANT/claude-sonnet-4-5" =
      .error "TypeError: unorderable types" ∧
    (checkQuotaAvailable
      ⟨.nat 0, .nat 0, .str "oops", .until_ 999999999, .nat 100, .nat 100,
        .nat 500⟩ "ANT/claude-sonnet-4-5" 0).1 = true ∧
    checkSeriesBanBody (fun _ => .malformed) "claude-sonnet-4-5" 0 =
      .error "ValueError: Invalid isoformat string" ∧
    checkSeriesBan (fun _ => .malformed) "claude-sonnet-4-5" 0 = false := by
  refine ⟨rfl, ?_, rfl, ?_⟩
  · exact failOpen_spec.1 _ "ANT/claude-sonnet-4-5" 0
      "TypeError: unorderable types" rfl
  · exact failOpen_spec.2 _ "claude-sonnet-4-5" 0
      "ValueError: Invalid isoformat string" rfl

/-- C5: handling a 429 whose details identify a model family bans exactly
that family of the account, leaving every other family's record untouched;
when no family is identifiable the ban is applied to every known family. -/
theorem handle429SeriesBan_spec (bans : BanMap) (details : Option ParsedDetails)
    (now : Int) :
    (∀ s : Series,
      identifyModelSeries ((details.map ParsedDetails.model).getD "") = some s →
      handle429SeriesBan bans details now s =
        .until_ (now + banDurationSeconds details now) ∧
      ∀ t : Series, t ≠ s → handle429SeriesBan bans details now t = bans t) ∧
    (identifyModelSeries ((details.map ParsedDetails.model).getD "") = none →
      ∀ t : Series,
        handle429SeriesBan bans details now t =
          .until_ (now + banDurationSeconds details now)) := by
  constructor
  · intro s hs
    constructor
    · simp [handle429SeriesBan, hs, setSeriesBan]
    · intro t ht
      simp [handle429SeriesBan, hs, setSeriesBan, ht]
  · intro hnone t
    have ht : t ∈ allSeries := by cases t <;> simp [allSeries]
    simp [handle429SeriesBan, hnone, foldl_setSeriesBan, ht]

/-- C5 witness: a 429 naming a Claude model bans only the Claude family of a
previously unbanned account; the Gemini 3 family stays untouched. -/
theorem handle429SeriesBan_spec_witness :
    handle429SeriesBan (fun _ => .absent)
      (some ⟨"claude-sonnet-4-5", none, some 600⟩) 1000 Series.claude =
      .until_ 2200 ∧
    handle429SeriesBan (fun _ => .absent)
      (some ⟨"claude-sonnet-4-5", none, some 600⟩) 1000 Series.gemini3 =
      .absent := by
  have h := (handle429SeriesBan_spec (fun _ => .absent)
    (some ⟨"claude-sonnet-4-5", none, some 600⟩) 1000).1 Series.claude
    (by decide)
  exact ⟨by simpa using h.1, by simpa using h.2 Series.gemini3 (by decide)⟩

/-- C6 (amended): once `now` reaches the stored reset instant, the lazy reset
zeroes all three counters and moves the reset instant to the next UTC 07:00
boundary after `now`; that new instant equals the old one plus exactly one
day whenever the old instant lies on the daily boundary and `now` is within
one day of it — not in general. -/
theorem quotaReset_spec (stats : RawStats) (now : Nat) (nextReset : Int)
    (hstored : stats.nextResetTime = .until_ nextReset)
    (hcross : (now : Int) ≥ nextReset) :
    (checkAndResetDailyQuota stats now).1.claudeCalls = .nat 0 ∧
    (checkAndResetDailyQuota stats now).1.geminiCalls = .nat 0 ∧
    (checkAndResetDailyQuota stats now).1.totalCalls = .nat 0 ∧
    (checkAndResetDailyQuota stats now).1.nextResetTime =
      .until_ (nextUtc7am now) ∧
    (checkAndResetDailyQuota stats now).2 = true ∧
    (∀ d : Nat, nextReset = 86400 * d + 25200 →
      (now : Int) < nextReset + 86400 →
      (nextUtc7am now : Int) = nextReset + 86400) := by
  have hres : checkAndResetDailyQuota stats now =
      (({ stats with
            claudeCalls := Val.nat 0
            geminiCalls := Val.nat 0
            totalCalls := Val.nat 0
            nextResetTime := StoredTime.until_ (nextUtc7am now) } : RawStats),
        true) := by
    simp [checkAndResetDailyQuota, hstored, hcross]
  refine ⟨by rw [hres], by rw [hres], by rw [hres], by rw [hres],
    by rw [hres], ?_⟩
  intro d hd hlt
  subst hd
  have h1 : 86400 * d + 25200 ≤ now := by exact_mod_cast hcross
  have h2 : now < 86400 * d + 25200 + 86400 := by exact_mod_cast hlt
  have hval : nextUtc7am now = 86400 * d + 25200 + 86400 := by
    show (if now < now / 86400 * 86400 + 7 * 3600
      then now / 86400 * 86400 + 7 * 3600
      else now / 86400 * 86400 + 7 * 3600 + 86400) = 86400 * d + 25200 + 86400
    split <;> omega
  rw [hval]
  push_cast
  ring

/-- C6 witness: crossing a boundary by one second — old reset at 25200
(day 0, 07:00 UTC), now = 25201 — zeroes the counters and yields
25200 + 86400 as the new reset instant. -/
theorem quotaReset_spec_witness :
    (checkAndResetDailyQuota
      ⟨.nat 5, .nat 6, .nat 7, .until_ 25200, .nat 100, .nat 100, .nat 500⟩
      25201).1.totalCalls = .nat 0 ∧
    (checkAndResetDailyQuota
      ⟨.nat 5, .nat 6, .nat 7, .until_ 25200, .nat 100, .nat 100, .nat 500⟩
      25201).1.nextResetTime = .until_ (25200 + 86400) := by
  have h := quotaReset_spec
    ⟨.nat 5, .nat 6, .nat 7, .until_ 25200, .nat 100, .nat 100, .nat 500⟩
    25201 25200 rfl (by decide)
  refine ⟨h.2.2.1, ?_⟩
  have h7 := h.2.2.2.2.2 0 (by decide) (by decide)
  have h4 := h.2.2.2.1
  rw [h4]
  simp only [Nat.cast_inj] at h7 ⊢
  norm_num at h7 ⊢
  exact_mod_cast h7

/-- C6 counterexample: with the old reset instant at 25200 (a 07:00 UTC
boundary) and `now` exactly one day later, the reset fires but stores
25200 + 2×86400 as the next instant — not "exactly one day later than the
old nextReset". -/
theorem quotaReset_counterexample :
    (checkAndResetDailyQuota
      ⟨.nat 5, .nat 6, .nat 7, .until_ 25200, .nat 100, .nat 100, .nat 500⟩
      111600).2 = true ∧
    (checkAndResetDailyQuota
      ⟨.nat 5, .nat 6, .nat 7, .until_ 25200, .nat 100, .nat 100, .nat 500⟩
      111600).1.nextResetTime = .until_ 198000 ∧
    (198000 : Int) ≠ 25200 + 86400 := by
  refine ⟨rfl, ?_, by decide⟩
  decide

/-- C1 (amended): the streaming retry decision depends only on the extracted
error code and the remaining attempt budget, not on whether output chunks
were already forwarded — a failing attempt with a retryable code and attempts
remaining rotates and re-attempts even after forwarding chunks; otherwise it
terminates with a final error chunk and the `[DONE]` marker. -/
theorem streamGen_retry_policy (autoBanErrorCodes : List Nat)
    (plans : List AttemptPlan) (chunks : List Nat) (errorCode : Nat)
    (attempt : Nat) (hatt : attempt < 5) :
    streamGenAux 5 autoBanErrorCodes
        (AttemptPlan.run chunks (some (some errorCode)) :: plans) attempt =
      if errorCode ∈ autoBanErrorCodes ∧ attempt < 4 then
        chunks.map Ev.chunk ++ [Ev.markError errorCode, Ev.rotate] ++
          streamGenAux 5 autoBanErrorCodes plans (attempt + 1)
      else
        chunks.map Ev.chunk ++
          [Ev.markError errorCode, Ev.errorChunk, Ev.doneMarker] := by
  rw [streamGenAux]
  simp only [Nat.not_le.mpr hatt, if_false, checkShouldRetryAntigravity]
  by_cases hmem : errorCode ∈ autoBanErrorCodes <;>
    by_cases hlt : attempt < 4 <;>
    simp [hmem, hlt, List.append_assoc]

/-- C1 witness: a first attempt that forwards a chunk and then fails with a
retryable 429 is rotated and retried. -/
theorem streamGen_retry_policy_witness :
    streamGen [429] [AttemptPlan.run [0] (some (some 429))] =
      [Ev.chunk 0, Ev.markError 429, Ev.rotate] := by
  have h := streamGen_retry_policy [429] [] [0] 429 0 (by decide)
  rw [streamGen, h]
  simp [streamGenAux]

/-- C1 counterexample: an attempt that has already forwarded chunk 0 to the
client fails with a 429 in the configured retry set; the orchestrator rotates
and re-attempts (re-forwarding fresh output) instead of terminating — the
full trace contains a forwarded chunk followed by a rotation. -/
theorem streamGen_midstream_retry_counterexample :
    streamGen [401, 403, 404, 429, 500]
        [AttemptPlan.run [0] (some (some 429)), AttemptPlan.run [1] none] =
      [Ev.chunk 0, Ev.markError 429, Ev.rotate, Ev.chunk 1, Ev.finishChunk,
        Ev.markSuccess, Ev.recordUsage] ∧
    chunkThenRotate (streamGen [401, 403, 404, 429, 500]
        [AttemptPlan.run [0] (some (some 429)), AttemptPlan.run [1] none]) =
      true := by
  constructor <;> decide

/-- Helper for C2 and C9: a `get_valid_credential` call made while the same
task already holds the operation lock never completes — `asyncio.Lock` is
not reentrant, so the `async with self._operation_lock` at line 523 blocks
forever. -/
theorem getValidCredentialAux_lockHeld (cpr : Nat)
    (refreshEi : Account → Option Int) (modelName : String) (now : Int)
    (fuel : Nat) (st : MgrState) (checked : Nat) (hfuel : 0 < fuel) :
    getValidCredentialAux cpr refreshEi modelName now fuel true st checked =
      .deadlock := by
  cases fuel with
  | zero => exact absurd hfuel (by omega)
  | succ fuel => rw [getValidCredentialAux]; simp

/-- C2: the bounded-termination claim fails on the code. With N ≥ 2 enabled
accounts (each carrying a project id) all banned for the family of the
requested model, a fresh `get_valid_credential(model, 0)` reaches the
recursive call at line 558 while still inside the `async with
self._operation_lock` block opened at line 523 and deadlocks re-acquiring
the non-reentrant lock — it never returns, with or without the
`_checked_count` guard. Only a single-account pool, which returns `None`
from the "only one account and series is banned" branch without recursing,
terminates after its one check as the claim describes. -/
theorem getValidCredential_allBanned_deadlocks :
    (∀ (accounts : List Account) (idx cc cpr : Nat)
      (refreshEi : Account → Option Int) (modelName : String) (now : Int),
      idx < accounts.length → 2 ≤ accounts.length →
      (∀ a ∈ accounts, a.hasProjectId = true) →
      (∀ a ∈ accounts, checkSeriesBan a.bans modelName now = true) →
      getValidCredential cpr refreshEi modelName now ⟨accounts, idx, cc⟩ =
        .deadlock) ∧
    (∀ (account : Account) (cc cpr : Nat) (refreshEi : Account → Option Int)
      (modelName : String) (now : Int),
      account.hasProjectId = true →
      checkSeriesBan account.bans modelName now = true →
      getValidCredential cpr refreshEi modelName now ⟨[account], 0, cc⟩ =
        .returns ⟨none, 1, []⟩) := by
  constructor
  · intro accounts idx cc cpr refreshEi modelName now hidx h2 _hproj hban
    have hlen : 0 < accounts.length := by omega
    have hemp : accounts.isEmpty = false := by
      cases accounts with
      | nil => simp at hlen
      | cons a l => rfl
    rw [getValidCredential, getValidCredentialAux]
    simp only [Bool.false_eq_true, if_false, hemp]
    have hguard : ¬ (0 ≥ accounts.length) := by omega
    simp only [hguard, if_false]
    -- the count-triggered rotation step: both outcomes keep the list and a
    -- cursor below the length
    set idx1 := if (decide (accounts.length > 1) && decide (cc ≥ cpr)) = true
      then (idx + 1) % accounts.length else idx with hidx1def
    set cc1 := if (decide (accounts.length > 1) && decide (cc ≥ cpr)) = true
      then 0 else cc with hcc1def
    have hst : (if (decide (accounts.length > 1) && decide (cc ≥ cpr)) = true
        then ({ accounts := accounts, idx := (idx + 1) % accounts.length,
                callCount := 0 } : MgrState)
        else ⟨accounts, idx, cc⟩) = ⟨accounts, idx1, cc1⟩ := by
      rw [hidx1def, hcc1def]
      split <;> rfl
    have hidx1 : idx1 < accounts.length := by
      rw [hidx1def]
      split
      · exact Nat.mod_lt _ hlen
      · exact hidx
    have hget : accounts[idx1]? = some accounts[idx1] :=
      List.getElem?_eq_getElem hidx1
    have hbanned :
        checkSeriesBan (accounts[idx1]).bans modelName now = true :=
      hban _ (List.getElem_mem hidx1)
    have hN : accounts.length > 1 := by omega
    simp only [hst, hget, hbanned, if_true]
    simp only [hN, if_true,
      getValidCredentialAux_lockHeld cpr refreshEi modelName now
        accounts.length _ _ hlen]
  · intro account cc cpr refreshEi modelName now _hproj hban
    simp [getValidCredential, getValidCredentialAux, hban]

/-- C2 witness: two accounts banned for the Claude family until 1000 make
`get_valid_credential` deadlock at time 0 — the concrete failing input —
while the same single account alone yields no credential after one check. -/
theorem getValidCredential_allBanned_deadlocks_witness :
    getValidCredential 100 (fun _ => none) "claude-sonnet-4-5" 0
      ⟨[⟨true, fun _ => .until_ 1000, some 0, some 0⟩,
        ⟨true, fun _ => .until_ 1000, some 0, some 0⟩], 0, 0⟩ =
      .deadlock ∧
    getValidCredential 100 (fun _ => none) "claude-sonnet-4-5" 0
      ⟨[⟨true, fun _ => .until_ 1000, some 0, some 0⟩], 0, 0⟩ =
      .returns ⟨none, 1, []⟩ := by
  constructor
  · refine getValidCredential_allBanned_deadlocks.1 _ 0 0 100 (fun _ => none)
      "claude-sonnet-4-5" 0 (by decide) (by decide) ?_ ?_
    · intro a ha
      simp only [List.mem_cons, List.not_mem_nil, or_false] at ha
      rcases ha with rfl | rfl <;> rfl
    · intro a ha
      simp only [List.mem_cons, List.not_mem_nil, or_false] at ha
      rcases ha with rfl | rfl <;> rfl
  · exact getValidCredential_allBanned_deadlocks.2
      ⟨true, fun _ => .until_ 1000, some 0, some 0⟩ 0 100 (fun _ => none)
      "claude-sonnet-4-5" 0 rfl rfl

/-- C9: a token record missing its issue timestamp or its `expires_in` is
treated as expired; with both present it is expired exactly when
`timestamp + expires_in × 1000 − 5 minutes ≤ now` (milliseconds); and
acquisition attempts a refresh on such an account before handing it out. -/
theorem isTokenExpired_spec :
    (∀ (account : Account) (nowMs : Int),
      account.timestampMs = none ∨ account.expiresInSec = none →
      isTokenExpired account nowMs = true) ∧
    (∀ (account : Account) (timestamp expiresIn nowMs : Int),
      account.timestampMs = some timestamp →
      account.expiresInSec = some expiresIn →
      (isTokenExpired account nowMs = true ↔
        timestamp + expiresIn * 1000 - 5 * 60 * 1000 ≤ nowMs)) ∧
    (∀ (account : Account) (cpr cc : Nat) (refreshEi : Account → Option Int)
      (modelName : String) (now newExpiresIn : Int),
      account.hasProjectId = true →
      checkSeriesBan account.bans modelName now = false →
      isTokenExpired account (now * 1000) = true →
      refreshEi account = some newExpiresIn →
      getValidCredential cpr refreshEi modelName now ⟨[account], 0, cc⟩ =
        .returns ⟨some 0, 1, [0]⟩) := by
  refine ⟨?_, ?_, ?_⟩
  · rintro ⟨hp, bans, ts, ei⟩ nowMs h
    rcases h with h | h
    · simp only at h; subst h; cases ei <;> rfl
    · simp only at h; subst h; cases ts <;> rfl
  · intro account timestamp expiresIn nowMs h1 h2
    simp [isTokenExpired, h1, h2, ge_iff_le]
  · intro account cpr cc refreshEi modelName now newExpiresIn hp hb hexp href
    simp [getValidCredential, getValidCredentialAux, hb, hexp, href]

/-- C9 witness: an account with no stored issue timestamp is expired, and a
single-account acquisition at time 0 refreshes it before handing it out; an
account issued at 0 with a one-hour ttl counts as expired at
now = 10^7 ms. -/
theorem isTokenExpired_spec_witness :
    isTokenExpired ⟨true, fun _ => .absent, none, some 3600⟩ 0 = true ∧
    isTokenExpired ⟨true, fun _ => .absent, some 0, some 3600⟩ 10000000 =
      true ∧
    getValidCredential 10 (fun _ => some 3600) "claude-sonnet-4-5" 0
      ⟨[⟨true, fun _ => .absent, none, some 3600⟩], 0, 0⟩ =
      .returns ⟨some 0, 1, [0]⟩ := by
  refine ⟨?_, ?_, ?_⟩
  · exact isTokenExpired_spec.1 ⟨true, fun _ => .absent, none, some 3600⟩ 0
      (Or.inl rfl)
  · exact (isTokenExpired_spec.2.1 ⟨true, fun _ => .absent, some 0, some 3600⟩
      0 3600 10000000 rfl rfl).mpr (by norm_num)
  · exact isTokenExpired_spec.2.2 ⟨true, fun _ => .absent, none, some 3600⟩
      10 0 (fun _ => some 3600) "claude-sonnet-4-5" 0 3600 rfl rfl rfl rfl

end Gateway
